import Mathlib

set_option maxRecDepth 100000

/-
  Verification development for the claude_pr_reviewer repository.

  The Python sources are shallowly embedded as Lean definitions:
  pure string processing becomes Lean functions on String, subprocess and
  HTTP effects become explicit oracle values (Except results supplied by the
  environment), and the orchestrator becomes a function from component
  behaviours to an exit code together with an event trace.
-/

/-! ## Python string primitives

Python string operations used by the sources, modelled structurally over the
character list of a Lean String so that everything reduces in the kernel.
Case conversion is modelled on the ASCII range (Char.toLower); the sources
only rely on ASCII behaviour. -/

/-- Python str.lower (ASCII range). -/
def pyLower (s : String) : String := ⟨s.data.map Char.toLower⟩

/-- The six characters Python str.strip removes. -/
def pyIsSpace (c : Char) : Bool :=
  c = ' ' || c = '\t' || c = '\n' || c = '\r' || c = '\x0B' || c = '\x0C'

/-- Python str.strip: remove leading and trailing whitespace. -/
def pyStrip (s : String) : String :=
  ⟨(((s.data.dropWhile pyIsSpace).reverse.dropWhile pyIsSpace).reverse)⟩

/-- Python str.startswith. -/
def pyStartsWith (s pre : String) : Bool := pre.data.isPrefixOf s.data

/-- Python slice `s[n:]` (by code point, as in Python). -/
def pyDrop (s : String) (n : Nat) : String := ⟨s.data.drop n⟩

/-- Python slice `s[:n]` (by code point, as in Python). -/
def pyTake (s : String) (n : Nat) : String := ⟨s.data.take n⟩

/-- Python len (code points). -/
def pyLen (s : String) : Nat := s.data.length

/-- Split a character list at every newline, keeping empty pieces, as
Python `s.split(chr(10))` does. -/
def splitNl : List Char → List (List Char)
  | [] => [[]]
  | c :: rest =>
    if c = '\n' then [] :: splitNl rest
    else
      match splitNl rest with
      | [] => [[c]]
      | l :: ls => (c :: l) :: ls

/-- Python `s.split(chr(10))`. -/
def pySplitLines (s : String) : List String :=
  (splitNl s.data).map (fun l => ⟨l⟩)

/-- Contiguous-sublist containment on character lists. -/
def listContains (hay needle : List Char) : Bool :=
  hay.tails.any (fun t => needle.isPrefixOf t)

/-- Python substring containment: `needle in hay`. -/
def strContains (hay needle : String) : Bool :=
  listContains hay.data needle.data

/-! ## ClaudeAIReviewer text extraction
(src/claude_pr_reviewer/ai/claude_ai_reviewer.py)

The two private methods `_extract_issues` and `_extract_suggestions` scan
`review_text` line by line with a boolean in-section flag, collect bulleted
lines, fall back to a keyword scan when nothing was collected, optionally
prepend a synthetic critical entry, and cap the list at 10. -/

/-- The synthetic issue entry inserted at position 0 when the response text
begins with the critical marker. -/
def criticalMarker : String := "CRITICAL ISSUES FOUND - Please fix before committing"

/-- Line opens the issues section: the lowercased line contains issue,
problem or bug. -/
def issueHeaderLine (line : String) : Bool :=
  strContains (pyLower line) "issue" || strContains (pyLower line) "problem" ||
    strContains (pyLower line) "bug"

/-- Bulleted line: the line starts with a dash-space or star-space marker. -/
def bulletLine (line : String) : Bool :=
  pyStartsWith line "- " || pyStartsWith line "* "

/-- Line closes the issues section. -/
def issueCloserLine (line : String) : Bool :=
  pyStartsWith line "#" || line == "" || strContains (pyLower line) "suggestion" ||
    strContains (pyLower line) "question" || strContains (pyLower line) "summary"

/-- Line opens the suggestions section: the lowercased line contains
suggestion or improvement. -/
def suggHeaderLine (line : String) : Bool :=
  strContains (pyLower line) "suggestion" || strContains (pyLower line) "improvement"

/-- Line closes the suggestions section. -/
def suggCloserLine (line : String) : Bool :=
  pyStartsWith line "#" || line == "" || strContains (pyLower line) "issue" ||
    strContains (pyLower line) "question" || strContains (pyLower line) "summary"

/-- The shared per-line loop of `_extract_issues` / `_extract_suggestions`,
parameterised by the header and closer predicates.  On a header line the
in-section flag is set and the loop continues; on a bulleted line inside the
section, `line[2:].strip()` is collected; on a closer line inside the section
the flag is cleared. -/
def sectionScan (header closer : String → Bool) : List String → Bool → List String
  | [], _ => []
  | line :: rest, inSec =>
    if header line then sectionScan header closer rest true
    else if inSec && bulletLine line then
      pyStrip (pyDrop line 2) :: sectionScan header closer rest inSec
    else if inSec && closer line then sectionScan header closer rest false
    else sectionScan header closer rest inSec

/-- Fallback keyword filter for issues:
lines containing issue/bug/error/fix with length greater than 10. -/
def issueFallbackLine (line : String) : Bool :=
  (strContains (pyLower line) "issue" || strContains (pyLower line) "bug" ||
     strContains (pyLower line) "error" || strContains (pyLower line) "fix") &&
    decide (pyLen line > 10)

/-- Fallback keyword filter for suggestions:
lines containing suggest/could/would be better with length greater than 10. -/
def suggFallbackLine (line : String) : Bool :=
  (strContains (pyLower line) "suggest" || strContains (pyLower line) "could" ||
     strContains (pyLower line) "would be better") &&
    decide (pyLen line > 10)

/-- The issues collected before the critical prepend and the cap:
the section scan over the split lines, or the fallback keyword scan when the
section scan collected nothing. -/
def issuesBase (review_text : String) : List String :=
  let lines := pySplitLines review_text
  let scanned := sectionScan issueHeaderLine issueCloserLine lines false
  if scanned = [] then (lines.filter issueFallbackLine).map pyStrip else scanned

/-- `ClaudeAIReviewer._extract_issues`.  Empty text yields `[]`; otherwise the
base list, with the synthetic critical entry prepended when the literal marker
occurs in the first 100 characters, capped at 10 entries.  (The try/except in
the source can only fire on interpreter-level failures and is not modelled.) -/
def extract_issues (review_text : String) : List String :=
  if review_text = "" then []
  else
    List.take 10
      (if strContains (pyTake review_text 100) "CRITICAL ISSUES FOUND" then
        criticalMarker :: issuesBase review_text
      else issuesBase review_text)

/-- The suggestions collected before the cap. -/
def suggsBase (review_text : String) : List String :=
  let lines := pySplitLines review_text
  let scanned := sectionScan suggHeaderLine suggCloserLine lines false
  if scanned = [] then (lines.filter suggFallbackLine).map pyStrip else scanned

/-- `ClaudeAIReviewer._extract_suggestions`. -/
def extract_suggestions (review_text : String) : List String :=
  if review_text = "" then [] else List.take 10 (suggsBase review_text)

/-! ## Data model -/

/-- The review record built by `ClaudeAIReviewer.review_code` and consumed by
the decision surface.  The Python value is a dict; the optional `error` key is
present exactly when the HTTP call failed (`error = some _` here).  The
`raw_response` entry only feeds the debug tab and is not modelled. -/
structure ReviewResult where
  review_text : String
  suggestions : List String
  issues : List String
  error : Option String
  diff : String
  deriving DecidableEq, Repr

/-- Outcome of the one HTTP POST to the messages endpoint, supplied by the
environment: `failure reason` models a raised `requests.RequestException`
whose `str` is `reason`; `success (some t)` a 2xx response whose
`content[0].text` is `t`; `success none` a 2xx response without that field. -/
inductive ApiOutcome where
  | failure (reason : String)
  | success (text : Option String)
  deriving DecidableEq

/-! ## ClaudeAIReviewer.review_code
(src/claude_pr_reviewer/ai/claude_ai_reviewer.py, lines 23-76)

The returned Bool records whether the HTTP POST was issued; the method never
issues more than one POST.  The prompt built from (diff, commit_msg, branch)
only feeds the request body, which the `ApiOutcome` oracle abstracts. -/

/-- `ClaudeAIReviewer.review_code`. -/
def review_code (net : ApiOutcome) (diff commit_msg branch : String) :
    ReviewResult × Bool :=
  if pyStrip diff = "" then
    ({ review_text := "No changes to review.", suggestions := [], issues := [],
       error := none, diff := "" }, false)
  else
    match net with
    | ApiOutcome.failure e =>
        ({ review_text := "Error calling Claude API: " ++ e, suggestions := [],
           issues := [], error := some e, diff := diff }, true)
    | ApiOutcome.success t =>
        let rt := t.getD "Could not extract review text from API response."
        ({ review_text := rt, suggestions := extract_suggestions rt,
           issues := extract_issues rt, error := none, diff := diff }, true)

/-! ## Decision surface
(src/claude_pr_reviewer/ui/terminal_ui.py and src/claude_pr_reviewer/ui/pyqt_ui.py) -/

/-- `any("critical" in str(issue).lower() for issue in issues)`, computed
identically by both UI variants. -/
def has_critical (issues : List String) : Bool :=
  issues.any (fun issue => strContains (pyLower issue) "critical")

/-- The read-eval loop at the end of `TerminalUI.show_review`: each input is
lowercased; y/yes resolves true, n/no resolves false, anything else
re-prompts.  The argument is the sequence of user inputs; `none` means the
inputs ran out without a decision (the real loop would keep prompting). -/
def terminalDecide : List String → Option Bool
  | [] => none
  | inp :: rest =>
    if pyLower inp = "y" ∨ pyLower inp = "yes" then some true
    else if pyLower inp = "n" ∨ pyLower inp = "no" then some false
    else terminalDecide rest

/-- `TerminalUI.show_review` as a decision function.  When `has_critical`
holds the method prints a warning line, but the decision loop that follows is
the same either way: the returned decision depends only on the typed inputs. -/
def terminal_show_review (issues : List String) (inputs : List String) :
    Option Bool :=
  terminalDecide inputs

/-- One user action on the PyQt review window: the cancel button, or the
proceed button together with the answer the user would give to the critical
confirmation dialog if it opens. -/
inductive PyQtAction where
  | clickCancel
  | clickProceed (confirmYes : Bool)
  deriving DecidableEq

/-- The decision wiring of `PyQtUI.show_review` (lines 442-466) together with
`_confirm_proceed` (lines 488-499): cancel resolves false immediately; with no
critical issue, proceed resolves true immediately; with a critical issue,
proceed opens the warning dialog and only a Yes answer resolves true — a No
answer makes no decision (the window stays open, modelled as `none`). -/
def pyqtDecision (hasCritical : Bool) : PyQtAction → Option Bool
  | PyQtAction.clickCancel => some false
  | PyQtAction.clickProceed confirmYes =>
      if hasCritical then (if confirmYes then some true else none) else some true

/-! ## GitCLI.get_diff
(src/claude_pr_reviewer/git/git_cli.py, lines 12-97)

Each subprocess invocation is an oracle value: `Except.error ()` models a
`CalledProcessError`, `Except.ok out` a successful command with output `out`.
The diff against the upstream tracking branch is a function of the branch
name obtained from `git rev-parse @{u}` (stripped, as in the source). -/

/-- The outcomes of the git commands `get_diff` may run. -/
structure GitWorld where
  staged : Except Unit String
  revParseHead : Except Unit String
  workingDiff : Except Unit String
  upstreamRef : Except Unit String
  upstreamDiff : String → Except Unit String
  originMainDiff : Except Unit String
  lastCommitDiff : Except Unit String

/-- The inner fallback of `get_diff`: `git diff origin/main...HEAD`, then on
failure `git diff HEAD~1..HEAD`; a successful command appends its output to
`diff` only when the output is non-blank. -/
def originFallback (w : GitWorld) (diff : String) : String :=
  match w.originMainDiff with
  | Except.ok bd => if pyStrip bd ≠ "" then diff ++ bd else diff
  | Except.error _ =>
    match w.lastCommitDiff with
    | Except.ok cd => if pyStrip cd ≠ "" then diff ++ cd else diff
    | Except.error _ => diff

/-- `GitCLI.get_diff`.  Staged output is kept only when non-blank; when the
accumulated diff is still blank, a missing HEAD routes to the full working
diff (returned directly, empty on failure), otherwise the upstream diff is
tried, with `originFallback` on a `CalledProcessError` from either the
rev-parse or the diff command. -/
def get_diff (w : GitWorld) : String :=
  let diff :=
    match w.staged with
    | Except.ok s => if pyStrip s ≠ "" then s else ""
    | Except.error _ => ""
  if pyStrip diff ≠ "" then diff
  else
    match w.revParseHead with
    | Except.error _ =>
      (match w.workingDiff with
       | Except.ok s => s
       | Except.error _ => "")
    | Except.ok _ =>
      match w.upstreamRef with
      | Except.ok ref =>
        (match w.upstreamDiff (pyStrip ref) with
         | Except.ok bd => if pyStrip bd ≠ "" then diff ++ bd else diff
         | Except.error _ => originFallback w diff)
      | Except.error _ => originFallback w diff

/-- Staged changes yielded nothing: the command failed, or succeeded with
blank output. -/
def stagedBlank (w : GitWorld) : Prop :=
  w.staged = Except.error () ∨ ∃ s, w.staged = Except.ok s ∧ pyStrip s = ""

/-- The upstream attempt raised: rev-parse of the tracking ref failed, or the
diff against it failed. -/
def upstreamFailed (w : GitWorld) : Prop :=
  w.upstreamRef = Except.error () ∨
    ∃ ref, w.upstreamRef = Except.ok ref ∧
      w.upstreamDiff (pyStrip ref) = Except.error ()

/-! ## PRReviewer.run
(src/claude_pr_reviewer/pr_reviewer.py, lines 23-56)

The three collaborators are oracle behaviours; `Except.error e` models a
raised exception whose `str` is `e`.  `runT` returns the exit code (or the
exception that escaped `run` itself) together with the trace of review-client
and decision-surface calls, so that call counts can be stated. -/

/-- The behaviours of the components handed to `PRReviewer`. -/
structure Components where
  get_diff : Except String String
  get_commit_message : Except String String
  get_branch_name : Except String String
  review_code : String → String → String → Except String ReviewResult
  show_review : ReviewResult → Except String Bool
  show_error : String → Except String Unit

deriving instance DecidableEq for Except

/-- One observable call made by `run`. -/
inductive RunEvent where
  | reviewCall (diff commit_msg branch : String) (result : Except String ReviewResult)
  | showReviewCall (rd : ReviewResult) (result : Except String Bool)
  | showErrorCall (message : String)
  deriving DecidableEq

/-- The `except Exception` handler at the bottom of `run`: print and report
the message, return 1; an exception raised by `show_error` itself escapes. -/
def handleExc (c : Components) (tr : List RunEvent) (e : String) :
    Except String Int × List RunEvent :=
  match c.show_error ("Unexpected error: " ++ e) with
  | Except.ok _ => (Except.ok 1, tr ++ [RunEvent.showErrorCall ("Unexpected error: " ++ e)])
  | Except.error e2 => (Except.error e2, tr ++ [RunEvent.showErrorCall ("Unexpected error: " ++ e)])

/-- The tail of `run` after the review client returned or raised: the
`"error" in review_data` check routes to `show_error` and exit 1, otherwise
`show_review` decides between exit 0 and exit 1; every raise inside the try
block reaches `handleExc`. -/
def afterReview (c : Components) (rres : Except String ReviewResult)
    (tr : List RunEvent) : Except String Int × List RunEvent :=
  match rres with
  | Except.error e => handleExc c tr e
  | Except.ok rd =>
    match rd.error with
    | some err =>
      (match c.show_error ("Error during review: " ++ err) with
       | Except.ok _ =>
         (Except.ok 1, tr ++ [RunEvent.showErrorCall ("Error during review: " ++ err)])
       | Except.error e =>
         handleExc c (tr ++ [RunEvent.showErrorCall ("Error during review: " ++ err)]) e)
    | none =>
      (match c.show_review rd with
       | Except.ok proceed =>
         (Except.ok (if proceed then 0 else 1),
           tr ++ [RunEvent.showReviewCall rd (Except.ok proceed)])
       | Except.error e =>
         handleExc c (tr ++ [RunEvent.showReviewCall rd (Except.error e)]) e)

/-- `PRReviewer.run`, instrumented with the trace of its calls. -/
def runT (c : Components) : Except String Int × List RunEvent :=
  match c.get_diff with
  | Except.error e => handleExc c [] e
  | Except.ok diff =>
    if pyStrip diff = "" then (Except.ok 0, [])
    else
      match c.get_commit_message with
      | Except.error e => handleExc c [] e
      | Except.ok commit_msg =>
        match c.get_branch_name with
        | Except.error e => handleExc c [] e
        | Except.ok branch =>
          afterReview c (c.review_code diff commit_msg branch)
            [RunEvent.reviewCall diff commit_msg branch
              (c.review_code diff commit_msg branch)]

/-- `PRReviewer.run` itself: the exit code, or the exception that escaped. -/
def run (c : Components) : Except String Int := (runT c).1

/-- Is the event a review-client call. -/
def isReviewCall : RunEvent → Bool
  | RunEvent.reviewCall _ _ _ _ => true
  | _ => false

/-- Is the event a decision-surface call. -/
def isShowReviewCall : RunEvent → Bool
  | RunEvent.showReviewCall _ _ => true
  | _ => false

/-- Is the event an error-display call. -/
def isShowErrorCall : RunEvent → Bool
  | RunEvent.showErrorCall _ => true
  | _ => false

/-- Number of review-client calls in a trace. -/
def countReview (tr : List RunEvent) : Nat := (tr.filter isReviewCall).length

/-- Number of decision-surface calls in a trace. -/
def countShowReview (tr : List RunEvent) : Nat := (tr.filter isShowReviewCall).length

/-- Number of error-display calls in a trace. -/
def countShowError (tr : List RunEvent) : Nat := (tr.filter isShowErrorCall).length

/-! ## Concrete component worlds used by witnesses and counterexamples -/

/-- Components whose git reports a whitespace-only diff. -/
def cEmptyDiff : Components :=
  { get_diff := Except.ok " \n",
    get_commit_message := Except.ok "m",
    get_branch_name := Except.ok "b",
    review_code := fun d m b => Except.ok (review_code (ApiOutcome.success none) d m b).1,
    show_review := fun _ => Except.ok true,
    show_error := fun _ => Except.ok () }

/-- Components wired to the real reviewer under a failing HTTP POST. -/
def cHttpFail : Components :=
  { get_diff := Except.ok "x",
    get_commit_message := Except.ok "m",
    get_branch_name := Except.ok "b",
    review_code := fun d m b => Except.ok (review_code (ApiOutcome.failure "boom") d m b).1,
    show_review := fun _ => Except.ok true,
    show_error := fun _ => Except.ok () }

/-- Components wired to the real reviewer under a successful HTTP POST,
with a user that proceeds. -/
def cProceed : Components :=
  { get_diff := Except.ok "x",
    get_commit_message := Except.ok "m",
    get_branch_name := Except.ok "b",
    review_code := fun d m b => Except.ok (review_code (ApiOutcome.success (some "ok")) d m b).1,
    show_review := fun _ => Except.ok true,
    show_error := fun _ => Except.ok () }

/-- Components whose git raises and whose error display itself raises. -/
def cUiRaises : Components :=
  { get_diff := Except.error "git exploded",
    get_commit_message := Except.ok "m",
    get_branch_name := Except.ok "b",
    review_code := fun d m b => Except.ok (review_code (ApiOutcome.success none) d m b).1,
    show_review := fun _ => Except.ok true,
    show_error := fun _ => Except.error "ui raised" }

/-- A git world where the upstream diff command succeeds with blank output
while the origin/main alternative would have yielded content. -/
def wUpstreamEmpty : GitWorld :=
  { staged := Except.ok "",
    revParseHead := Except.ok "h",
    workingDiff := Except.ok "",
    upstreamRef := Except.ok "origin/feature",
    upstreamDiff := fun _ => Except.ok "",
    originMainDiff := Except.ok "diff content here",
    lastCommitDiff := Except.ok "" }

/-- A git world with non-blank staged output. -/
def wStaged : GitWorld :=
  { staged := Except.ok "staged hunk",
    revParseHead := Except.ok "h",
    workingDiff := Except.error (),
    upstreamRef := Except.error (),
    upstreamDiff := fun _ => Except.error (),
    originMainDiff := Except.error (),
    lastCommitDiff := Except.error () }

/-- A git world where every diff-producing command fails. -/
def wAllFail : GitWorld :=
  { staged := Except.error (),
    revParseHead := Except.ok "h",
    workingDiff := Except.error (),
    upstreamRef := Except.error (),
    upstreamDiff := fun _ => Except.error (),
    originMainDiff := Except.error (),
    lastCommitDiff := Except.error () }

/-- The ReviewResult the real reviewer produces in `cProceed`. -/
def rdProceed : ReviewResult :=
  { review_text := "ok", suggestions := [], issues := [], error := none, diff := "x" }

/-- Components whose git reports an empty (not just whitespace) diff. -/
def cNoDiff : Components :=
  { get_diff := Except.ok "",
    get_commit_message := Except.ok "m",
    get_branch_name := Except.ok "b",
    review_code := fun d m b => Except.ok (review_code (ApiOutcome.success none) d m b).1,
    show_review := fun _ => Except.ok true,
    show_error := fun _ => Except.ok () }

/-! ### Claims C5, C6, C7 -/

/-- Claim C5: on the well-formed input text the issue extraction returns
exactly the two bulleted issue entries and the suggestion extraction returns
exactly the one bulleted suggestion entry. -/
theorem extract_wellformed_exact :
    extract_issues "Issues:\n- A\n- B\n\nSuggestions:\n- C\n" = ["A", "B"] ∧
      extract_suggestions "Issues:\n- A\n- B\n\nSuggestions:\n- C\n" = ["C"] := by
  constructor <;> rfl


/-- Claim C6: whenever the literal marker occurs within the first 100
characters of the response text, the extracted issues list is non-empty and
its first element is the fixed synthetic critical entry. -/
theorem extract_issues_critical_head (t : String)
    (h : strContains (pyTake t 100) "CRITICAL ISSUES FOUND" = true) :
    extract_issues t ≠ [] ∧ (extract_issues t).head? = some criticalMarker := by
  have hne : t ≠ "" := by
    intro he
    subst he
    revert h
    decide
  unfold extract_issues
  rw [if_neg hne, if_pos h]
  simp [List.take]

/-- Witness for C6 at a concrete critical response text. -/
theorem extract_issues_critical_head_witness :
    extract_issues "CRITICAL ISSUES FOUND in the diff" ≠ [] ∧
      (extract_issues "CRITICAL ISSUES FOUND in the diff").head? = some criticalMarker :=
  extract_issues_critical_head "CRITICAL ISSUES FOUND in the diff" (by decide)

/-- Claim C7: for every input text, both extractions return at most 10
entries, also when the synthetic critical entry is prepended. -/
theorem extract_lists_capped (t : String) :
    (extract_issues t).length ≤ 10 ∧ (extract_suggestions t).length ≤ 10 := by
  constructor
  · unfold extract_issues
    split
    · simp
    · exact le_trans (List.length_take_le 10 _) (le_refl 10)
  · unfold extract_suggestions
    split
    · simp
    · exact le_trans (List.length_take_le 10 _) (le_refl 10)

/-! ### Claim C1 -/

/-- Claim C1: for every empty or whitespace-only diff, `review_code` returns
the fixed no-changes ReviewResult with empty issue and suggestion lists and
does not issue the HTTP POST, and a run whose git reports such a diff exits 0
(its trace is empty, so in particular no review-client call happens). -/
theorem empty_diff_short_circuit (net : ApiOutcome) (diff commit_msg branch : String)
    (c : Components) (hd : pyStrip diff = "") (hc : c.get_diff = Except.ok diff) :
    review_code net diff commit_msg branch =
      ({ review_text := "No changes to review.", suggestions := [], issues := [],
         error := none, diff := "" }, false) ∧
      runT c = (Except.ok 0, []) := by
  constructor
  · unfold review_code
    rw [if_pos hd]
  · unfold runT
    rw [hc]
    simp [hd]

/-- Witness for C1 at a whitespace-only diff. -/
theorem empty_diff_short_circuit_witness :
    review_code (ApiOutcome.success none) " \n" "m" "b" =
      ({ review_text := "No changes to review.", suggestions := [], issues := [],
         error := none, diff := "" }, false) ∧
      runT cEmptyDiff = (Except.ok 0, []) :=
  empty_diff_short_circuit (ApiOutcome.success none) " \n" "m" "b" cEmptyDiff
    (by decide) rfl

/-! ### Claim C2 -/

/-- Claim C2 as stated is false on the terminal variant: with a critical
issue present, a single affirmative input resolves to proceed=true with no
confirmation step (the terminal decision loop never asks for one). -/
theorem terminal_critical_single_yes :
    has_critical [criticalMarker] = true ∧
      terminal_show_review [criticalMarker] ["y"] = some true := by
  constructor <;> decide

/-- Claim C2 amended: when any issue text contains critical in any case, the
windowed variant requires the confirmation dialog to be answered Yes before
resolving proceed=true (a proceed click with a No answer decides nothing),
cancel resolves without confirmation, while the terminal variant resolves
proceed=true from a single affirmative input with no confirmation; a cancel
decision never requires confirmation. -/
theorem critical_confirmation_by_variant (issues : List String)
    (h : has_critical issues = true) :
    pyqtDecision (has_critical issues) (PyQtAction.clickProceed false) = none ∧
      pyqtDecision (has_critical issues) (PyQtAction.clickProceed true) = some true ∧
      pyqtDecision (has_critical issues) PyQtAction.clickCancel = some false ∧
      terminal_show_review issues ["y"] = some true ∧
      terminal_show_review issues ["n"] = some false := by
  rw [h]
  exact ⟨rfl, rfl, rfl, rfl, rfl⟩

/-- Witness for the amended C2 at a concrete critical issue list. -/
theorem critical_confirmation_by_variant_witness :
    pyqtDecision (has_critical ["Critical bug"]) (PyQtAction.clickProceed false) = none ∧
      pyqtDecision (has_critical ["Critical bug"]) (PyQtAction.clickProceed true) = some true ∧
      pyqtDecision (has_critical ["Critical bug"]) PyQtAction.clickCancel = some false ∧
      terminal_show_review ["Critical bug"] ["y"] = some true ∧
      terminal_show_review ["Critical bug"] ["n"] = some false :=
  critical_confirmation_by_variant ["Critical bug"] (by decide)

/-! ### Claim C8 -/

/-- Claim C8: in the terminal decision loop, y, Y and yes resolve to
proceed=true, n and no resolve to proceed=false, and any other input
re-prompts: the decision over the remaining inputs is unchanged. -/
theorem terminal_input_mapping (x : String) (rest : List String)
    (hy : ¬(pyLower x = "y" ∨ pyLower x = "yes"))
    (hn : ¬(pyLower x = "n" ∨ pyLower x = "no")) :
    terminalDecide ["y"] = some true ∧ terminalDecide ["Y"] = some true ∧
      terminalDecide ["yes"] = some true ∧ terminalDecide ["n"] = some false ∧
      terminalDecide ["no"] = some false ∧
      terminalDecide (x :: rest) = terminalDecide rest := by
  refine ⟨by decide, by decide, by decide, by decide, by decide, ?_⟩
  unfold terminalDecide
  rw [if_neg hy, if_neg hn]
  cases rest <;> rfl

/-- Witness for C8 with the unrecognised input maybe followed by y. -/
theorem terminal_input_mapping_witness :
    terminalDecide ["y"] = some true ∧ terminalDecide ["Y"] = some true ∧
      terminalDecide ["yes"] = some true ∧ terminalDecide ["n"] = some false ∧
      terminalDecide ["no"] = some false ∧
      terminalDecide ["maybe", "y"] = terminalDecide ["y"] :=
  terminal_input_mapping "maybe" ["y"] (by decide) (by decide)

/-! ### Claim C3 -/

/-- Claim C3 as stated is false in one corner: when the HTTP POST fails with
an exception whose text is empty, the error field is set but is the empty
string, so it is not non-empty. -/
theorem http_failure_empty_error_field :
    (review_code (ApiOutcome.failure "") "x" "m" "b").1.error = some "" := by
  decide

/-- Claim C3 amended: on a non-whitespace diff whose HTTP POST fails with
reason e, `review_code` returns a ReviewResult whose error field is set to e
(non-empty exactly when e is) and whose review text embeds the failure
reason, issuing exactly one POST with no retry; a run wired to that reviewer
makes exactly one review call, calls the error display exactly once, and
returns exit code 1. -/
theorem http_failure_error_path (e diff commit_msg branch : String) (c : Components)
    (hd : ¬pyStrip diff = "")
    (hc : c.get_diff = Except.ok diff)
    (hm : c.get_commit_message = Except.ok commit_msg)
    (hb : c.get_branch_name = Except.ok branch)
    (hr : c.review_code = fun d m b => Except.ok (review_code (ApiOutcome.failure e) d m b).1)
    (hse : c.show_error = fun _ => Except.ok ()) :
    (review_code (ApiOutcome.failure e) diff commit_msg branch).1.error = some e ∧
      (review_code (ApiOutcome.failure e) diff commit_msg branch).1.review_text =
        "Error calling Claude API: " ++ e ∧
      (review_code (ApiOutcome.failure e) diff commit_msg branch).2 = true ∧
      (runT c).1 = Except.ok 1 ∧
      countShowError (runT c).2 = 1 ∧
      countReview (runT c).2 = 1 := by
  have hrc : review_code (ApiOutcome.failure e) diff commit_msg branch =
      ({ review_text := "Error calling Claude API: " ++ e, suggestions := [],
         issues := [], error := some e, diff := diff }, true) := by
    unfold review_code
    rw [if_neg hd]
  have hrun : runT c =
      (Except.ok 1,
        [RunEvent.reviewCall diff commit_msg branch
            (Except.ok { review_text := "Error calling Claude API: " ++ e,
                         suggestions := [], issues := [], error := some e, diff := diff }),
          RunEvent.showErrorCall ("Error during review: " ++ e)]) := by
    simp only [runT, hc, hm, hb, hr, if_neg hd, hrc, afterReview, hse,
      List.cons_append, List.nil_append]
  refine ⟨by rw [hrc], by rw [hrc], by rw [hrc], by rw [hrun], ?_, ?_⟩
  · rw [hrun]
    simp [countShowError, isShowErrorCall, List.filter]
  · rw [hrun]
    simp [countReview, isReviewCall, List.filter]

/-- Witness for the amended C3 at a concrete failing POST. -/
theorem http_failure_error_path_witness :
    (review_code (ApiOutcome.failure "boom") "x" "m" "b").1.error = some "boom" ∧
      (review_code (ApiOutcome.failure "boom") "x" "m" "b").1.review_text =
        "Error calling Claude API: " ++ "boom" ∧
      (review_code (ApiOutcome.failure "boom") "x" "m" "b").2 = true ∧
      (runT cHttpFail).1 = Except.ok 1 ∧
      countShowError (runT cHttpFail).2 = 1 ∧
      countReview (runT cHttpFail).2 = 1 :=
  http_failure_error_path "boom" "x" "m" "b" cHttpFail (by decide) rfl rfl rfl rfl rfl

/-! ### Claim C9 -/

/-- Claim C9: in every execution of `run`, the review client is called at
most once and the decision surface at most once (no retry loop), and any
ReviewResult handed to the decision surface is exactly the one the review
client returned — in this pure embedding the record passes through
unchanged, which is the no-mutation invariant. -/
theorem run_single_shot (c : Components) :
    countReview (runT c).2 ≤ 1 ∧ countShowReview (runT c).2 ≤ 1 ∧
      ∀ rd res, RunEvent.showReviewCall rd res ∈ (runT c).2 →
        ∃ d m b, RunEvent.reviewCall d m b (Except.ok rd) ∈ (runT c).2 := by
  obtain ⟨gd, gm, gb, rc, sr, se⟩ := c
  unfold runT afterReview handleExc
  rcases gd with e | diff <;> (try dsimp only)
  · cases h1 : se ("Unexpected error: " ++ e) <;>
      simp [countReview, countShowReview, isReviewCall, isShowReviewCall, List.filter]
  · by_cases hdf : pyStrip diff = ""
    · simp [hdf, countReview, countShowReview]
    · rw [if_neg hdf]
      rcases gm with e | cm <;> (try dsimp only)
      · cases h1 : se ("Unexpected error: " ++ e) <;>
          simp [countReview, countShowReview, isReviewCall, isShowReviewCall, List.filter]
      · rcases gb with e | br <;> (try dsimp only)
        · cases h1 : se ("Unexpected error: " ++ e) <;>
            simp [countReview, countShowReview, isReviewCall, isShowReviewCall, List.filter]
        · rcases hrv : rc diff cm br with e | rd <;> (try dsimp only)
          · cases h1 : se ("Unexpected error: " ++ e) <;>
              simp [countReview, countShowReview, isReviewCall, isShowReviewCall, List.filter]
          · rcases herr : rd.error with _ | err <;> (try dsimp only)
            · rcases hsr : sr rd with e2 | proceed <;> (try dsimp only)
              · cases h2 : se ("Unexpected error: " ++ e2) <;> (try dsimp only) <;>
                  (refine ⟨?_, ?_, ?_⟩
                   · simp [countReview, isReviewCall, List.filter]
                   · simp [countShowReview, isShowReviewCall, List.filter]
                   · intro rd0 res0 hmem
                     simp only [List.cons_append, List.nil_append, List.mem_cons,
                       List.not_mem_nil, or_false] at hmem
                     rcases hmem with h | h | h
                     · exact absurd h (by simp)
                     · rw [RunEvent.showReviewCall.injEq] at h
                       obtain ⟨h3, h4⟩ := h
                       subst h3
                       exact ⟨diff, cm, br, by simp⟩
                     · exact absurd h (by simp))
              · refine ⟨?_, ?_, ?_⟩
                · simp [countReview, isReviewCall, List.filter]
                · simp [countShowReview, isShowReviewCall, List.filter]
                · intro rd0 res0 hmem
                  simp only [List.cons_append, List.nil_append, List.mem_cons,
                    List.not_mem_nil, or_false] at hmem
                  rcases hmem with h | h
                  · exact absurd h (by simp)
                  · rw [RunEvent.showReviewCall.injEq] at h
                    obtain ⟨h3, h4⟩ := h
                    subst h3
                    exact ⟨diff, cm, br, by simp⟩
            · rcases h1 : se ("Error during review: " ++ err) with e2 | u <;> (try dsimp only)
              · cases h2 : se ("Unexpected error: " ++ e2) <;>
                  simp [countReview, countShowReview, isReviewCall, isShowReviewCall,
                    List.filter]
              · simp [countReview, countShowReview, isReviewCall, isShowReviewCall,
                  List.filter]

/-- Witness for C9 on a concrete full run that reaches the decision surface. -/
theorem run_single_shot_witness :
    countReview (runT cProceed).2 ≤ 1 ∧ countShowReview (runT cProceed).2 ≤ 1 ∧
      ∃ d m b, RunEvent.reviewCall d m b (Except.ok rdProceed) ∈ (runT cProceed).2 :=
  ⟨(run_single_shot cProceed).1, (run_single_shot cProceed).2.1,
    (run_single_shot cProceed).2.2 rdProceed (Except.ok true) (by decide)⟩

/-! ### Claim C10 -/

/-- Claim C10 as stated is false: when the git call raises and the error
display itself raises while handling it, `run` does not return an exit code
at all — the second exception escapes instead of becoming 0 or 1. -/
theorem run_exit_escape :
    (runT cUiRaises).1 = Except.error "ui raised" ∧
      (runT cUiRaises).1 ≠ Except.ok 0 ∧ (runT cUiRaises).1 ≠ Except.ok 1 := by
  refine ⟨rfl, by decide, by decide⟩

/-- Claim C10 amended: whenever `run` returns normally — in particular
whenever the error display does not itself raise — the exit code is 0 or 1
and nothing else, and it is 0 only when the diff was empty or whitespace-only
or when the decision surface returned proceed. -/
theorem run_exit_code_range (c : Components) (n : Int)
    (h : (runT c).1 = Except.ok n) :
    (n = 0 ∨ n = 1) ∧
      (n = 0 → (∃ d, c.get_diff = Except.ok d ∧ pyStrip d = "") ∨
        ∃ rd, RunEvent.showReviewCall rd (Except.ok true) ∈ (runT c).2) := by
  obtain ⟨gd, gm, gb, rc, sr, se⟩ := c
  unfold runT afterReview handleExc at h ⊢
  rcases gd with e | diff <;> (try dsimp only at h ⊢)
  · rcases h1 : se ("Unexpected error: " ++ e) with e2 | u <;>
      rw [h1] at h <;> (try dsimp only at h)
    · exact absurd h (by simp)
    · injection h with h2
      subst h2
      exact ⟨Or.inr rfl, fun h0 => absurd h0 (by decide)⟩
  · by_cases hdf : pyStrip diff = ""
    · rw [if_pos hdf] at h ⊢
      dsimp only at h
      injection h with h2
      subst h2
      exact ⟨Or.inl rfl, fun _ => Or.inl ⟨diff, rfl, hdf⟩⟩
    · rw [if_neg hdf] at h ⊢
      rcases gm with e | cm <;> (try dsimp only at h ⊢)
      · rcases h1 : se ("Unexpected error: " ++ e) with e2 | u <;>
          rw [h1] at h <;> (try dsimp only at h)
        · exact absurd h (by simp)
        · injection h with h2
          subst h2
          exact ⟨Or.inr rfl, fun h0 => absurd h0 (by decide)⟩
      · rcases gb with e | br <;> (try dsimp only at h ⊢)
        · rcases h1 : se ("Unexpected error: " ++ e) with e2 | u <;>
            rw [h1] at h <;> (try dsimp only at h)
          · exact absurd h (by simp)
          · injection h with h2
            subst h2
            exact ⟨Or.inr rfl, fun h0 => absurd h0 (by decide)⟩
        · rcases hrv : rc diff cm br with e | rd <;>
            rw [hrv] at h <;> (try dsimp only at h ⊢)
          · rcases h1 : se ("Unexpected error: " ++ e) with e2 | u <;>
              rw [h1] at h <;> (try dsimp only at h)
            · exact absurd h (by simp)
            · injection h with h2
              subst h2
              exact ⟨Or.inr rfl, fun h0 => absurd h0 (by decide)⟩
          · rcases herr : rd.error with _ | err <;>
              rw [herr] at h <;> (try dsimp only at h ⊢)
            · rcases hsr : sr rd with e2 | proceed <;>
                rw [hsr] at h <;> (try dsimp only at h ⊢)
              · rcases h2 : se ("Unexpected error: " ++ e2) with e3 | u <;>
                  rw [h2] at h <;> (try dsimp only at h)
                · exact absurd h (by simp)
                · injection h with h3
                  subst h3
                  exact ⟨Or.inr rfl, fun h0 => absurd h0 (by decide)⟩
              · cases proceed
                · simp at h
                  subst h
                  exact ⟨Or.inr rfl, fun h0 => absurd h0 (by decide)⟩
                · simp at h
                  subst h
                  refine ⟨Or.inl rfl, fun _ => Or.inr ⟨rd, ?_⟩⟩
                  simp
            · rcases h1 : se ("Error during review: " ++ err) with e2 | u <;>
                rw [h1] at h <;> (try dsimp only at h ⊢)
              · rcases h2 : se ("Unexpected error: " ++ e2) with e3 | u2 <;>
                  rw [h2] at h <;> (try dsimp only at h)
                · exact absurd h (by simp)
                · injection h with h3
                  subst h3
                  exact ⟨Or.inr rfl, fun h0 => absurd h0 (by decide)⟩
              · injection h with h3
                subst h3
                exact ⟨Or.inr rfl, fun h0 => absurd h0 (by decide)⟩

/-- Witness for the amended C10 on a concrete run that exits 0 by the user
choosing proceed. -/
theorem run_exit_code_range_witness :
    ((0 : Int) = 0 ∨ (0 : Int) = 1) ∧
      ((0 : Int) = 0 → (∃ d, cProceed.get_diff = Except.ok d ∧ pyStrip d = "") ∨
        ∃ rd, RunEvent.showReviewCall rd (Except.ok true) ∈ (runT cProceed).2) :=
  run_exit_code_range cProceed 0 (by decide)

/-! ### Claim C4 -/

/-- Prepending the empty accumulated diff is the identity. -/
theorem nil_append_str (s : String) : "" ++ s = s := by
  cases s
  rfl

/-- When the staged step yielded nothing, `get_diff` proceeds to the
commit-dependent branches with an empty accumulated diff. -/
theorem get_diff_stagedBlank (w : GitWorld) (h : stagedBlank w) :
    get_diff w =
      match w.revParseHead with
      | Except.error _ =>
        (match w.workingDiff with
         | Except.ok s => s
         | Except.error _ => "")
      | Except.ok _ =>
        match w.upstreamRef with
        | Except.ok ref =>
          (match w.upstreamDiff (pyStrip ref) with
           | Except.ok bd => if pyStrip bd ≠ "" then "" ++ bd else ""
           | Except.error _ => originFallback w "")
        | Except.error _ => originFallback w "" := by
  unfold get_diff
  rcases h with h | ⟨s, hs, hs2⟩
  · rw [h]
    dsimp only
    rw [if_neg (by decide)]
  · rw [hs]
    dsimp only
    have hdiff : (if pyStrip s ≠ "" then s else "") = "" := if_neg (fun hn => hn hs2)
    rw [hdiff, if_neg (by decide)]

/-- Claim C4 fails on the advance condition: in `wUpstreamEmpty` the upstream
diff command succeeds with blank output, a later alternative (origin/main)
would have produced non-empty output, yet the cascade stops and returns empty
text instead of advancing. -/
theorem cascade_stops_on_blank_upstream :
    get_diff wUpstreamEmpty = "" ∧
      wUpstreamEmpty.originMainDiff = Except.ok "diff content here" ∧
      pyStrip "diff content here" ≠ "" := by
  refine ⟨by decide, rfl, by decide⟩

/-- Claim C4 amended: `get_diff` advances past the staged step when that
command fails or its output is blank; when no commit exists it returns the
full working diff directly (empty on failure) without trying later
alternatives; otherwise it tries the upstream-tracking diff and advances to
the origin/main diff and then the latest-commit diff only on command failure —
a later command that succeeds with blank output ends the cascade with empty
text rather than advancing; every command failure is swallowed, and when
everything fails the result is empty text and the run exits 0. -/
theorem get_diff_cascade (w : GitWorld) :
    (∀ s, w.staged = Except.ok s → pyStrip s ≠ "" → get_diff w = s) ∧
      (stagedBlank w → w.revParseHead = Except.error () →
        ∀ s, w.workingDiff = Except.ok s → get_diff w = s) ∧
      (stagedBlank w → w.revParseHead = Except.error () →
        w.workingDiff = Except.error () → get_diff w = "") ∧
      (stagedBlank w → ∀ hh ref bd, w.revParseHead = Except.ok hh →
        w.upstreamRef = Except.ok ref → w.upstreamDiff (pyStrip ref) = Except.ok bd →
        get_diff w = (if pyStrip bd ≠ "" then bd else "")) ∧
      (stagedBlank w → ∀ hh, w.revParseHead = Except.ok hh → upstreamFailed w →
        ∀ od, w.originMainDiff = Except.ok od →
        get_diff w = (if pyStrip od ≠ "" then od else "")) ∧
      (stagedBlank w → ∀ hh, w.revParseHead = Except.ok hh → upstreamFailed w →
        w.originMainDiff = Except.error () → ∀ cd, w.lastCommitDiff = Except.ok cd →
        get_diff w = (if pyStrip cd ≠ "" then cd else "")) ∧
      (stagedBlank w → ∀ hh, w.revParseHead = Except.ok hh → upstreamFailed w →
        w.originMainDiff = Except.error () → w.lastCommitDiff = Except.error () →
        get_diff w = "") ∧
      (∀ c : Components, c.get_diff = Except.ok (get_diff w) → get_diff w = "" →
        (runT c).1 = Except.ok 0) := by
  refine ⟨?_, ?_, ?_, ?_, ?_, ?_, ?_, ?_⟩
  · intro s hs hns
    unfold get_diff
    rw [hs]
    dsimp only
    simp only [if_pos hns]
  · intro hb hrp s hwd
    rw [get_diff_stagedBlank w hb, hrp]
    dsimp only
    rw [hwd]
  · intro hb hrp hwd
    rw [get_diff_stagedBlank w hb, hrp]
    dsimp only
    rw [hwd]
  · intro hb hh ref bd hrp hur hud
    rw [get_diff_stagedBlank w hb, hrp]
    dsimp only
    rw [hur]
    dsimp only
    rw [hud]
    dsimp only
    split_ifs
    · exact nil_append_str bd
    · rfl
  · intro hb hh hrp huf od hom
    rw [get_diff_stagedBlank w hb, hrp]
    dsimp only
    rcases huf with h | ⟨ref, hr1, hr2⟩
    · rw [h]
      dsimp only
      unfold originFallback
      rw [hom]
      dsimp only
      split_ifs
      · exact nil_append_str od
      · rfl
    · rw [hr1]
      dsimp only
      rw [hr2]
      dsimp only
      unfold originFallback
      rw [hom]
      dsimp only
      split_ifs
      · exact nil_append_str od
      · rfl
  · intro hb hh hrp huf hom cd hlc
    rw [get_diff_stagedBlank w hb, hrp]
    dsimp only
    rcases huf with h | ⟨ref, hr1, hr2⟩
    · rw [h]
      dsimp only
      unfold originFallback
      rw [hom]
      dsimp only
      rw [hlc]
      dsimp only
      split_ifs
      · exact nil_append_str cd
      · rfl
    · rw [hr1]
      dsimp only
      rw [hr2]
      dsimp only
      unfold originFallback
      rw [hom]
      dsimp only
      rw [hlc]
      dsimp only
      split_ifs
      · exact nil_append_str cd
      · rfl
  · intro hb hh hrp huf hom hlc
    rw [get_diff_stagedBlank w hb, hrp]
    dsimp only
    rcases huf with h | ⟨ref, hr1, hr2⟩
    · rw [h]
      dsimp only
      unfold originFallback
      rw [hom]
      dsimp only
      rw [hlc]
    · rw [hr1]
      dsimp only
      rw [hr2]
      dsimp only
      unfold originFallback
      rw [hom]
      dsimp only
      rw [hlc]
  · intro c hc h0
    rw [h0] at hc
    unfold runT
    rw [hc]
    simp [show pyStrip "" = "" from rfl]

/-- Witness for the amended C4: a non-blank staged diff is returned as-is, a
world where every command fails yields empty text, and a run over that empty
diff exits 0. -/
theorem get_diff_cascade_witness :
    get_diff wStaged = "staged hunk" ∧ get_diff wAllFail = "" ∧
      (runT cNoDiff).1 = Except.ok 0 :=
  ⟨(get_diff_cascade wStaged).1 "staged hunk" rfl (by decide),
    (get_diff_cascade wAllFail).2.2.2.2.2.2.1 (Or.inl rfl) "h" rfl (Or.inl rfl) rfl rfl,
    (get_diff_cascade wAllFail).2.2.2.2.2.2.2 cNoDiff (by decide) (by decide)⟩
